import Mathlib

/-!
Verification of the dls-normsql `Aiosqlite` persistence layer
(`src/dls_normsql/aiosqlite.py`) against its natural-language specification.

The development shallowly embeds the two subsystems the claims are about:

* the backup/restore subsystem (`Aiosqlite.backup`, `Aiosqlite.restore`),
  modelled as functions over an explicit store state that records the
  reverse-sorted snapshot listing, the `__last_restore` index and the
  connection flag, with the outcome of the out-of-band file copy supplied
  as a boolean parameter (`copyOk`) since the copy is an external effect;

* the schema / migration / CRUD core (`connect`, `apply_revision`,
  `insert`, `update`, `query`), modelled over an association-list database
  whose tables are ordered lists of rows, each row an ordered list of
  (column, value) pairs mirroring sqlite rows accessed by name.

String constants (`Tablenames.REVISION = "revision"`,
`CommonFieldnames.CREATED_ON = "created_on"`,
`RevisionFieldnames.NUMBER = "number"`) come from the repository's
`dls_normsql/constants.py`, which is not among the provided sources; their
values are modelled from the spec (section 6: bookkeeping table "revision"
with columns `created_on` and `number`) and are corroborated by the SQL
literals hard-coded in `aiosqlite.py` itself
(`SELECT number FROM {Tablenames.REVISION}` and the fresh-store insert
`{"number": self.LATEST_REVISION}`).
-/

namespace DlsNormsql

/-! ## Backup/restore subsystem -/

/--
State of one `Aiosqlite` store as the backup/restore subsystem sees it.

`listing` is the snapshot listing exactly as `backup`/`restore` compute it:
`glob(f"{directory}/{basename}.*{suffix}")` followed by
`filenames.sort(reverse=True)`, so it is reverse-sorted, newest first
(snapshot names embed a sortable timestamp).  The live file
`basename{suffix}` does not match the glob pattern (the pattern requires a
dot between basename and suffix), so `listing` holds snapshots only.

`lastRestore` is the private `__last_restore` attribute (an arbitrary
Python int: `restore` stores the caller-supplied `nth` there, which may be
negative).  `connected` tells whether the live connection is open.
-/
structure DBState where
  filename : String
  listing : List String
  lastRestore : Int
  connected : Bool
deriving Repr, DecidableEq

/--
Observable outcome of one `backup`/`restore` call: the final store state,
the message of the exception raised (`none` when the call returns
normally), the (source, destination) of the file copy when one succeeded,
and the snapshot files deleted by the pruning loop.
-/
structure OpResult where
  state : DBState
  error : Option String
  copied : Option (String × String)
  removed : List String
deriving Repr, DecidableEq

/--
Python list indexing `l[i]`: nonnegative indices count from the front,
negative indices count from the back; out of range gives `none`
(Python raises `IndexError`).
-/
def pyGet {α : Type} (l : List α) (i : Int) : Option α :=
  if 0 ≤ i then l.get? i.toNat
  else if (-i) ≤ (l.length : Int) then l.get? (l.length - (-i).toNat)
  else none

/--
`Aiosqlite.backup` (aiosqlite.py lines 455-490).  `newName` is the fresh
timestamped snapshot filename `f"{directory}/{basename}.{timestamp}{suffix}"`;
its timestamp is current, hence it sorts before every existing snapshot, so
on success the next reverse-sorted listing is `newName :: pruned`.
`copyOk` tells whether `shutil.copy2` succeeds.

The pruning loop `for restore in range(self.__last_restore)` deletes
`filenames[0] ... filenames[k-1]`; `range` of a nonpositive int is empty,
hence the `Int.toNat` clamp.  If `lastRestore` exceeds the listing length
the loop deletes every listed file and then dies with `IndexError` before
reaching the `self.__last_restore = 0` line, the lock, or the copy.
On a copy failure the `except` clause raises
`RuntimeError(f"copy {self.__filename} to {to_filename} failed")` and the
`finally` clause reconnects regardless.
-/
def backup (s : DBState) (newName : String) (copyOk : Bool) : OpResult :=
  let k := s.lastRestore.toNat
  if k > s.listing.length then
    { state := { s with listing := [] }
      error := some "IndexError"
      copied := none
      removed := s.listing }
  else
    let pruned := s.listing.drop k
    if copyOk then
      { state := { s with listing := newName :: pruned, lastRestore := 0, connected := true }
        error := none
        copied := some (s.filename, newName)
        removed := s.listing.take k }
    else
      { state := { s with listing := pruned, lastRestore := 0, connected := true }
        error := some ("copy " ++ s.filename ++ " to " ++ newName ++ " failed")
        copied := none
        removed := s.listing.take k }

/--
`Aiosqlite.restore` (aiosqlite.py lines 493-525).  Checks only
`nth >= len(filenames)`; in range it copies `filenames[nth]` (Python
indexing, so negative `nth` counts from the back) over the live file,
reconnecting in a `finally` clause, and assigns
`self.__last_restore = nth` only after the `try`/`finally` completes
without an exception.  A copy failure raises
`RuntimeError(f"copy {from_filename} to {self.__filename} failed")`.
-/
def restore (s : DBState) (nth : Int) (copyOk : Bool) : OpResult :=
  if nth ≥ (s.listing.length : Int) then
    { state := s
      error := some ("restoration index " ++ toString nth
        ++ " is more than available " ++ toString s.listing.length)
      copied := none
      removed := [] }
  else
    match pyGet s.listing nth with
    | none =>
      { state := s
        error := some "IndexError"
        copied := none
        removed := [] }
    | some fromName =>
      if copyOk then
        { state := { s with connected := true, lastRestore := nth }
          error := none
          copied := some (fromName, s.filename)
          removed := [] }
      else
        { state := { s with connected := true }
          error := some ("copy " ++ fromName ++ " to " ++ s.filename ++ " failed")
          copied := none
          removed := [] }

/-! ## Database model: values, rows, table definitions -/

/--
A sqlite storage value as this layer handles it: NULL, an integer or a
text string (the revision bookkeeping only ever stores these).
-/
inductive Value where
  | null : Value
  | int : Int → Value
  | text : String → Value
deriving Repr, DecidableEq

/--
A row as the code handles it: an ordered mapping from column name to
value (Python dicts on the way in, `OrderedDict` on the way out of
`query`).
-/
abbrev Row := List (String × Value)

/-- Storage type and index flag of one field of a table definition. -/
structure FieldSpec where
  type : String
  index : Bool
deriving Repr, DecidableEq

/--
`dls_normsql.table_definition.TableDefinition`: a table name and an
ordered mapping from field name to field spec (insertion order determines
column order).
-/
structure TableDefinition where
  name : String
  fields : List (String × FieldSpec)
deriving Repr, DecidableEq

/--
Modelled from the spec: `dls_normsql/constants.py` is not among the
provided sources.  Per spec section 6 the bookkeeping table is named
"revision" and `CommonFieldnames.CREATED_ON` is the "created_on" column;
`aiosqlite.py` itself hard-codes `SELECT number FROM {Tablenames.REVISION}`
and inserts the key "number", fixing `RevisionFieldnames.NUMBER`.
-/
def CREATED_ON : String := "created_on"

/-- Modelled from the spec: `Tablenames.REVISION` (see `CREATED_ON`). -/
def REVISION_TABLE : String := "revision"

/-- Modelled from the spec: `CommonFieldnames.UUID`, an identity field never updatable. -/
def UUID_FIELD : String := "uuid"

/-- Modelled from the spec: `CommonFieldnames.AUTOID`, an identity field never updatable. -/
def AUTOID_FIELD : String := "autoid"

/--
`RevisionTableDefinition` (aiosqlite.py lines 529-536): table "revision"
with `created_on TEXT` (indexed) and `number INTEGER` (not indexed).
-/
def revisionTableDefinition : TableDefinition :=
  { name := REVISION_TABLE
    fields := [(CREATED_ON, { type := "TEXT", index := true }),
               ("number", { type := "INTEGER", index := false })] }

/-- Membership test `field in row` on a Python dict, by key. -/
def rowHas (row : Row) (f : String) : Bool :=
  row.any (fun p => p.1 == f)

/-- Lookup `row[field]` on a Python dict, by key. -/
def rowGet (row : Row) (f : String) : Option Value :=
  (row.find? (fun p => p.1 == f)).map Prod.snd

/--
The database: a mapping from table name to the table's current list of
rows.  Every stored row carries exactly the table's schema columns in
schema order (sqlite rows), columns absent from an INSERT getting NULL
(no column defaults are declared by `create_table`).
-/
structure Database where
  tables : List (String × List Row)
deriving Repr, DecidableEq

/-- Lookup of a table's rows by table name. -/
def dbGetTable (db : Database) (n : String) : Option (List Row) :=
  (db.tables.find? (fun p => p.1 == n)).map Prod.snd

/-- Replacement of a table's rows by table name. -/
def dbSetTable (db : Database) (n : String) (rows : List Row) : Database :=
  { tables := db.tables.map (fun p => if p.1 == n then (n, rows) else p) }

/--
`Aiosqlite.create_table` (aiosqlite.py lines 213-244): `DROP TABLE IF
EXISTS` then `CREATE TABLE` from the definition's fields, so the table
ends up present and empty (index creation has no row-level effect).
-/
def create_table (db : Database) (table : TableDefinition) : Database :=
  { tables := (db.tables.filter (fun p => !(p.1 == table.name))) ++ [(table.name, [])] }

/-! ## insert (aiosqlite.py lines 247-313) -/

/--
The `insertable_fields` loop of `Aiosqlite.insert`: a schema field is
insertable when the FIRST row carries it, or when it is the created
timestamp field (auto-filled).
-/
def insertableFields (table : TableDefinition) (firstRow : Row) : List String :=
  table.fields.filterMap (fun p =>
    if rowHas firstRow p.1 then some p.1
    else if p.1 == CREATED_ON then some p.1
    else none)

/--
The `values_row` loop of `Aiosqlite.insert` for one row: a value for each
schema field the row carries, and `row.get(created_on, now)` for the
created timestamp field when the row lacks it.
-/
def valuesRow (table : TableDefinition) (now : String) (row : Row) : List Value :=
  table.fields.filterMap (fun p =>
    if rowHas row p.1 then rowGet row p.1
    else if p.1 == CREATED_ON then
      some (match rowGet row p.1 with
        | some v => v
        | none => Value.text now)
    else none)

/--
Sqlite's behaviour on `INSERT INTO t (cols) VALUES (?...)`: the stored
row has the table's schema columns in schema order, listed columns taking
the bound values and unlisted columns NULL (`create_table` declares no
defaults).
-/
def mkStoredRow (table : TableDefinition) (cols : List String) (vals : List Value) : Row :=
  table.fields.map (fun p =>
    ((p.1 : String), match (cols.zip vals).find? (fun cv => cv.1 == p.1) with
     | some cv => cv.2
     | none => Value.null))

/--
`Aiosqlite.insert` restricted to a resolved table definition: no-op on an
empty row list; otherwise builds `insertable_fields` from the first row,
one `values_row` per row, and runs a batched INSERT.  The engine rejects
the statement (sqlite `OperationalError`, re-raised as `RuntimeError
f"failed to execute {sql}"`) when the table does not exist or a values
row does not match the placeholder count.
-/
def insert (db : Database) (table : TableDefinition) (now : String) (rows : List Row) :
    Except String Database :=
  match rows with
  | [] => Except.ok db
  | firstRow :: _ =>
    let fields := insertableFields table firstRow
    let vrows := rows.map (valuesRow table now)
    match dbGetTable db table.name with
    | none => Except.error ("failed to execute INSERT INTO " ++ table.name)
    | some existing =>
      if vrows.all (fun v => v.length == fields.length) then
        Except.ok (dbSetTable db table.name
          (existing ++ vrows.map (mkStoredRow table fields)))
      else Except.error ("failed to execute INSERT INTO " ++ table.name)

/-! ## update (aiosqlite.py lines 316-376) -/

/--
The SET-clause loop of `Aiosqlite.update`: schema fields other than the
identity fields (`uuid`, `autoid`) that the given row carries, paired
with the row's values, in schema order.
-/
def updatableAssignments (table : TableDefinition) (row : Row) : List (String × Value) :=
  table.fields.filterMap (fun p =>
    if p.1 == UUID_FIELD || p.1 == AUTOID_FIELD then none
    else match rowGet row p.1 with
      | some v => some (p.1, v)
      | none => none)

/-- Application of a SET clause to one stored row. -/
def applyAssignments (assigns : List (String × Value)) (r : Row) : Row :=
  r.map (fun p =>
    match assigns.find? (fun a => a.1 == p.1) with
    | some a => ((p.1 : String), a.2)
    | none => p)

/--
`Aiosqlite.update` restricted to a resolved table definition, with the
WHERE clause given by its predicate meaning (`wherePred`; the clause
`"1 = 1"` used by `connect` means `fun r => true`).  Raises when no field
of the row matches the table, errors on a missing table, and returns the
affected row count.
-/
def update (db : Database) (table : TableDefinition) (row : Row)
    (wherePred : Row → Bool) : Except String (Database × Nat) :=
  let assigns := updatableAssignments table row
  if assigns.isEmpty then Except.error "no fields in record match database table"
  else
    match dbGetTable db table.name with
    | none => Except.error ("failed to execute UPDATE " ++ table.name)
    | some rows =>
      Except.ok
        (dbSetTable db table.name
          (rows.map (fun r => if wherePred r then applyAssignments assigns r else r)),
         (rows.filter wherePred).length)

/-- Meaning of the literal WHERE clause `"1 = 1"`. -/
def whereAll : Row → Bool := fun _ => true

/-! ## Migration engine and connect (aiosqlite.py lines 69-153) -/

/-- The compiled-in target revision `self.LATEST_REVISION = 1`. -/
def LATEST_REVISION : Int := 1

/-- Python `range(a, b)` over ints: `[a, a+1, ..., b-1]`, empty when `b ≤ a`. -/
def pyRange (a b : Int) : List Int :=
  (List.range (b - a).toNat).map (fun i => a + i)

/--
`Aiosqlite.apply_revision` (aiosqlite.py lines 146-153): for revision 1
it re-creates the "revision" table and then inserts the single row
`{"revision": revision}` — note the key is the string "revision", which
is not a field of the revision table's schema (`created_on`, `number`),
so `insert` silently drops it; for any other revision it does nothing.
-/
def apply_revision (db : Database) (now : String) (revision : Int) : Except String Database :=
  if revision == 1 then
    insert (create_table db revisionTableDefinition) revisionTableDefinition now
      [[("revision", Value.int revision)]]
  else Except.ok db

/--
Sequential application of `apply_revision` over a list of revisions (the
body of `connect`'s migration loop); a raised exception aborts the rest.
-/
def applyRevisionList (now : String) : Database → List Int → Except String Database
  | db, [] => Except.ok db
  | db, r :: rs => (apply_revision db now r).bind (fun db1 => applyRevisionList now db1 rs)

/--
The revision read of `Aiosqlite.connect`'s existing-store branch (lines
110-123): `SELECT number FROM revision`; a failing query (table absent —
legacy store) is caught and yields 0, an empty result set yields 0,
otherwise `records[0]["number"]`.  A stored NULL or text value makes the
subsequent Python comparison `old_revision < self.LATEST_REVISION` raise
an uncaught `TypeError`, modelled as `none`.
-/
def readRevision (db : Database) : Option Int :=
  match dbGetTable db REVISION_TABLE with
  | none => some 0
  | some [] => some 0
  | some (r :: _) =>
    match rowGet r "number" with
    | some (Value.int n) => some n
    | _ => none

/--
The existing-store branch of `Aiosqlite.connect` (lines 109-138): read
the current revision (0 for a legacy store); when below
`LATEST_REVISION`, run `apply_revision(revision + 1)` for `revision` in
`range(old_revision, LATEST_REVISION)` — i.e. apply revisions
`old+1 ... LATEST_REVISION` in increasing order — then
`update(revision-table, {"number": LATEST_REVISION}, "1 = 1")`.
-/
def connect_existing (db : Database) (now : String) : Except String Database :=
  match readRevision db with
  | none => Except.error "TypeError: revision value does not compare with int"
  | some old =>
    if old < LATEST_REVISION then
      (applyRevisionList now db
          ((pyRange old LATEST_REVISION).map (fun r => r + 1))).bind
        (fun db1 =>
          (update db1 revisionTableDefinition
              [("number", Value.int LATEST_REVISION)] whereAll).bind
            (fun p => Except.ok p.1))
    else Except.ok db

/--
Filesystem facts about the backing store file that `connect` reads and
writes: whether the file exists, whether its parent directory exists, and
the file's permission bits.
-/
structure FsState where
  fileExists : Bool
  dirExists : Bool
  mode : Nat
deriving Repr, DecidableEq

/--
The table registry after `add_table_definitions` (aiosqlite.py lines
181-183): exactly the built-in `RevisionTableDefinition`.
-/
def tableRegistry : List TableDefinition := [revisionTableDefinition]

/--
`Aiosqlite.connect` (aiosqlite.py lines 69-143) over the filesystem state
and the database content of the backing file (ignored when the file does
not exist: a fresh sqlite file holds no tables).  Fresh store: create the
parent directory if needed, open the file (creating it), create every
registered schema, insert the initial revision record
`{"number": LATEST_REVISION}`, and `os.chmod(filename, 0o666)`.
Existing store: run the migration branch; the filesystem is untouched.
-/
def connect (fs : FsState) (db : Database) (now : String) :
    Except String (FsState × Database) :=
  if fs.fileExists then
    (connect_existing db now).map (fun db1 => (fs, db1))
  else
    let fresh : Database := { tables := [] }
    let created := tableRegistry.foldl create_table fresh
    (insert created revisionTableDefinition now
        [[("number", Value.int LATEST_REVISION)]]).map
      (fun db2 => ({ fileExists := true, dirExists := true, mode := 0o666 }, db2))

/-! ## query (aiosqlite.py lines 420-452) -/

/--
The engine's response to executing a read statement on a cursor: the
described column labels with the fetched rows, a sqlite
`OperationalError`, or any other exception (which `query` does not wrap).
-/
inductive EngineResult where
  | ok : List String → List (List Value) → EngineResult
  | operationalError : String → EngineResult
  | otherError : String → EngineResult
deriving Repr, DecidableEq

/--
Observable outcome of `Aiosqlite.query`: the returned records or the
raised exception's message, and whether the cursor opened for the query
was closed by the time the call returned.
-/
structure QueryResult where
  result : Except String (List Row)
  cursorClosed : Bool
deriving Repr

/--
Modelled from the spec: `dls_utilpack.explain` is an external utility not
among the provided sources; per the spec the original engine error is
preserved via an "explained" error, so the explained message is the
context followed by the original message.
-/
def explain (msg ctx : String) : String := (ctx ++ ": ") ++ msg

/--
`record[col] = row[index]` insertion into an `OrderedDict`: an existing
key keeps its position and takes the new value, a new key is appended.
-/
def setKey (r : Row) (k : String) (v : Value) : Row :=
  if rowHas r k then r.map (fun p => if p.1 == k then ((p.1 : String), v) else p)
  else r ++ [(k, v)]

/--
The record-building loop of `Aiosqlite.query`: one `OrderedDict` per
fetched row, filling `record[col] = row[index]` over the enumerated
column labels.  (Sqlite always fetches exactly one value per described
column, so the `zip` never truncates in reachable states.)
-/
def buildRecord (cols : List String) (vals : List Value) : Row :=
  (cols.zip vals).foldl (fun r cv => setKey r cv.1 cv.2) []

/--
`Aiosqlite.query` as a function of the engine's response: on success the
full result set is materialized as ordered records; a sqlite
`OperationalError` is re-raised as `RuntimeError(explain(exception,
f"executing {sql}"))` (with the `why` text inserted when supplied); any
other exception propagates unwrapped.  The `finally` clause closes the
cursor on every path.
-/
def query (engine : EngineResult) (sql : String) (why : Option String) : QueryResult :=
  match engine with
  | EngineResult.ok cols rows =>
    { result := Except.ok (rows.map (buildRecord cols))
      cursorClosed := true }
  | EngineResult.operationalError m =>
    { result := Except.error
        (match why with
         | none => explain m ("executing " ++ sql)
         | some w => explain m ("executing " ++ w ++ ": " ++ sql))
      cursorClosed := true }
  | EngineResult.otherError m =>
    { result := Except.error m
      cursorClosed := true }

/-! ## Shared lemmas -/

/-- Python indexing with a nonnegative index reads from the front. -/
theorem pyGet_of_nonneg {α : Type} (l : List α) (i : Int) (h : 0 ≤ i) :
    pyGet l i = l.get? i.toNat := by
  simp [pyGet, h]

/-- Python indexing at a nonnegative in-range index hits that list element. -/
theorem pyGet_natCast {α : Type} (l : List α) (k : Nat) (hk : k < l.length) :
    pyGet l (k : Int) = some (l.get ⟨k, hk⟩) := by
  rw [pyGet_of_nonneg l (k : Int) (Int.ofNat_nonneg k)]
  simp [List.get?_eq_get hk]

/-- Python indexing with a negative index reads from the back. -/
theorem pyGet_of_neg {α : Type} (l : List α) (i : Int) (h0 : i < 0)
    (h1 : -i ≤ (l.length : Int)) :
    pyGet l i = l.get? (l.length - (-i).toNat) := by
  have hn : ¬ (0 ≤ i) := by omega
  simp [pyGet, hn, h1]

/-- A negative in-range Python index hits an element. -/
theorem pyGet_of_neg_isSome {α : Type} (l : List α) (i : Int) (h0 : i < 0)
    (h1 : -i ≤ (l.length : Int)) :
    ∃ a, pyGet l i = some a := by
  rw [pyGet_of_neg l i h0 h1]
  have hlen : l.length - (-i).toNat < l.length := by omega
  exact ⟨l.get ⟨_, hlen⟩, List.get?_eq_get hlen⟩

/-- After `create_table` the table is present in the catalog and empty. -/
theorem dbGetTable_create_table (db : Database) (t : TableDefinition) :
    dbGetTable (create_table db t) t.name = some [] := by
  unfold dbGetTable create_table
  simp only [List.find?_append]
  have h1 : (db.tables.filter (fun p => !(p.1 == t.name))).find?
      (fun p => p.1 == t.name) = none := by
    rw [List.find?_eq_none]
    intro x hx
    have hmem := List.of_mem_filter hx
    simp only [Bool.not_eq_true'] at hmem
    simp [hmem]
  rw [h1]
  simp

/-- Replacing an existing table's rows makes a lookup return the new rows. -/
theorem list_find?_set (l : List (String × List Row)) (n : String) (rows : List Row)
    (h : (l.find? (fun p => p.1 == n)).isSome = true) :
    ((l.map (fun p => if p.1 == n then (n, rows) else p)).find? (fun p => p.1 == n))
      = some (n, rows) := by
  induction l with
  | nil => simp at h
  | cons hd tl ih =>
    by_cases hh : hd.1 == n
    · simp only [List.map_cons, hh, if_true]
      exact List.find?_cons_of_pos _ (by simp)
    · simp only [List.map_cons, hh, if_false]
      rw [List.find?_cons_of_neg _ (by simp_all)]
      rw [List.find?_cons_of_neg _ (by simp_all)] at h
      exact ih h

/-- `dbSetTable` on a present table makes `dbGetTable` return the new rows. -/
theorem dbGetTable_dbSetTable_same (db : Database) (n : String) (rows : List Row)
    (h : (dbGetTable db n).isSome = true) :
    dbGetTable (dbSetTable db n rows) n = some rows := by
  unfold dbGetTable dbSetTable at *
  rw [list_find?_set db.tables n rows (by simpa using h)]
  rfl

/--
One-row insert into a table present in the catalog: appends the stored
row built from the insertable fields and the values row.
-/
theorem insert_single_of_present (db : Database) (t : TableDefinition) (now : String)
    (row : Row) (rs : List Row) (h : dbGetTable db t.name = some rs)
    (hlen : (valuesRow t now row).length = (insertableFields t row).length) :
    insert db t now [row] = Except.ok (dbSetTable db t.name
      (rs ++ [mkStoredRow t (insertableFields t row) (valuesRow t now row)])) := by
  unfold insert
  simp [h, hlen]

/-- `update` with the all-rows WHERE clause rewrites every stored row. -/
theorem update_whereAll_of_present (db : Database) (t : TableDefinition) (row : Row)
    (rs : List Row) (h : dbGetTable db t.name = some rs)
    (hne : (updatableAssignments t row).isEmpty = false) :
    update db t row whereAll = Except.ok
      (dbSetTable db t.name (rs.map (applyAssignments (updatableAssignments t row))),
       rs.length) := by
  unfold update
  simp [h, hne, whereAll]

/-! ## Claim C1: what backup's pruning step removes -/

/--
Claim C1 refuted at a concrete input: with two snapshots (reverse-sorted
listing `["db.2.db", "db.1.db"]`, newest first) and `lastRestoreIndex = 1`,
the pruning loop of `backup` deletes `"db.2.db"` — the NEWEST snapshot,
the entry at the START of the reverse-sorted listing — whereas the claim
says it removes the oldest 1 entries, those at the END of that listing,
which here would be `["db.1.db"]`.
-/
theorem backup_prune_claim_counterexample :
    (backup { filename := "db.db", listing := ["db.2.db", "db.1.db"],
              lastRestore := 1, connected := true } "db.3.db" true).removed
      = ["db.2.db"]
    ∧ (["db.2.db"] : List String) ≠ ["db.1.db"] := by
  exact ⟨rfl, by decide⟩

/--
Claim C1 (amended): for every store state with `lastRestoreIndex = K` (at
most the number of snapshots) and the reverse-sorted newest-first snapshot
listing, `backup`'s pruning step removes the NEWEST `K` entries — the `K`
entries at the START of that listing — and resets `lastRestoreIndex` to 0
before taking the new snapshot, so the final index is 0 even when the
copy fails and, on success, the new snapshot joins the pruned listing.
-/
theorem backup_prunes_newest_and_resets (s : DBState) (newName : String) (copyOk : Bool)
    (hk : s.lastRestore.toNat ≤ s.listing.length) :
    (backup s newName copyOk).removed = s.listing.take s.lastRestore.toNat
    ∧ (backup s newName copyOk).state.lastRestore = 0
    ∧ (copyOk = true →
        (backup s newName copyOk).state.listing
          = newName :: s.listing.drop s.lastRestore.toNat) := by
  have hk' : ¬ (s.lastRestore.toNat > s.listing.length) := by omega
  cases copyOk <;> simp [backup, hk']

/-- Claim C1 (amended) at the counterexample's input. -/
theorem backup_prunes_newest_and_resets_witness :
    (backup { filename := "db.db", listing := ["db.2.db", "db.1.db"],
              lastRestore := 1, connected := true } "db.3.db" true).removed
      = (["db.2.db", "db.1.db"] : List String).take ((1 : Int)).toNat
    ∧ (backup { filename := "db.db", listing := ["db.2.db", "db.1.db"],
                lastRestore := 1, connected := true } "db.3.db" true).state.lastRestore = 0
    ∧ (true = true →
        (backup { filename := "db.db", listing := ["db.2.db", "db.1.db"],
                  lastRestore := 1, connected := true } "db.3.db" true).state.listing
          = "db.3.db" :: (["db.2.db", "db.1.db"] : List String).drop ((1 : Int)).toNat) :=
  backup_prunes_newest_and_resets
    { filename := "db.db", listing := ["db.2.db", "db.1.db"],
      lastRestore := 1, connected := true } "db.3.db" true (by decide)

/-! ## Claim C5: reconnect and error message on a failed copy -/

/--
Claim C5: for both `backup` and in-range `restore`, when the file copy
raises, the live connection is nonetheless reconnected before the
operation returns (the `finally` clause), and the copy failure surfaces
as a `RuntimeError` whose message names the source and destination
filenames.
-/
theorem copy_failure_reconnects_and_names_files (s t : DBState) (newName : String) (nth : Int)
    (hb : s.lastRestore.toNat ≤ s.listing.length)
    (h0 : 0 ≤ nth) (h1 : nth < (t.listing.length : Int)) :
    ((backup s newName false).state.connected = true
      ∧ (backup s newName false).error
          = some ("copy " ++ s.filename ++ " to " ++ newName ++ " failed"))
    ∧ ((restore t nth false).state.connected = true
        ∧ ∃ src, pyGet t.listing nth = some src
            ∧ (restore t nth false).error
                = some ("copy " ++ src ++ " to " ++ t.filename ++ " failed")) := by
  constructor
  · have hk' : ¬ (s.lastRestore.toNat > s.listing.length) := by omega
    simp [backup, hk']
  · have hlt : ¬ (nth ≥ (t.listing.length : Int)) := by omega
    have hsz : nth.toNat < t.listing.length := by omega
    have hget : pyGet t.listing nth = some (t.listing.get ⟨nth.toNat, hsz⟩) := by
      rw [pyGet_of_nonneg t.listing nth h0]
      exact List.get?_eq_get hsz
    simp [restore, hlt, hget]

/-- Claim C5 at a concrete input: one snapshot, failed copies both ways. -/
theorem copy_failure_reconnects_and_names_files_witness :
    ((backup { filename := "db.db", listing := ["db.1.db"],
               lastRestore := 0, connected := true } "db.2.db" false).state.connected = true
      ∧ (backup { filename := "db.db", listing := ["db.1.db"],
                  lastRestore := 0, connected := true } "db.2.db" false).error
          = some ("copy " ++ "db.db" ++ " to " ++ "db.2.db" ++ " failed"))
    ∧ ((restore { filename := "db.db", listing := ["db.1.db"],
                  lastRestore := 0, connected := true } 0 false).state.connected = true
        ∧ ∃ src, pyGet (["db.1.db"] : List String) 0 = some src
            ∧ (restore { filename := "db.db", listing := ["db.1.db"],
                         lastRestore := 0, connected := true } 0 false).error
                = some ("copy " ++ src ++ " to " ++ "db.db" ++ " failed")) :=
  copy_failure_reconnects_and_names_files
    { filename := "db.db", listing := ["db.1.db"], lastRestore := 0, connected := true }
    { filename := "db.db", listing := ["db.1.db"], lastRestore := 0, connected := true }
    "db.2.db" 0 (by decide) (by decide) (by decide)

/-! ## Claim C6: restore bounds check and snapshot selection -/

/--
Claim C6: `restore nth` with `nth` at least the snapshot count raises a
`RuntimeError` reporting the available count (leaving the state
untouched, no copy attempted); with `0 ≤ nth <` count it copies the
`nth` entry of the reverse-sorted newest-first listing over the live
file, `nth = 0` selecting the most recent snapshot.
-/
theorem restore_bounds_and_selection (s : DBState) (nth : Int) :
    (nth ≥ (s.listing.length : Int) →
       (restore s nth true).error
           = some ("restoration index " ++ toString nth
               ++ " is more than available " ++ toString s.listing.length)
       ∧ (restore s nth true).state = s
       ∧ (restore s nth true).copied = none)
    ∧ (∀ (k : Nat) (hk : k < s.listing.length),
        (restore s (k : Int) true).error = none
        ∧ (restore s (k : Int) true).copied
            = some (s.listing.get ⟨k, hk⟩, s.filename)) := by
  constructor
  · intro hge
    simp [restore, hge]
  · intro k hk
    have hlt : ¬ ((k : Int) ≥ (s.listing.length : Int)) := by
      simp only [ge_iff_le, not_le]
      exact_mod_cast hk
    have hget := pyGet_natCast s.listing k hk
    simp [restore, hlt, hget]

/-- Claim C6 at a concrete input: two snapshots, out-of-range 5 and in-range 0. -/
theorem restore_bounds_and_selection_witness :
    ((5 : Int) ≥ ((["db.2.db", "db.1.db"] : List String).length : Int) →
       (restore { filename := "db.db", listing := ["db.2.db", "db.1.db"],
                  lastRestore := 0, connected := true } 5 true).error
           = some ("restoration index " ++ toString (5 : Int)
               ++ " is more than available "
               ++ toString (["db.2.db", "db.1.db"] : List String).length)
       ∧ (restore { filename := "db.db", listing := ["db.2.db", "db.1.db"],
                    lastRestore := 0, connected := true } 5 true).state
           = { filename := "db.db", listing := ["db.2.db", "db.1.db"],
               lastRestore := 0, connected := true }
       ∧ (restore { filename := "db.db", listing := ["db.2.db", "db.1.db"],
                    lastRestore := 0, connected := true } 5 true).copied = none)
    ∧ (∀ (k : Nat) (hk : k < (["db.2.db", "db.1.db"] : List String).length),
        (restore { filename := "db.db", listing := ["db.2.db", "db.1.db"],
                   lastRestore := 0, connected := true } (k : Int) true).error = none
        ∧ (restore { filename := "db.db", listing := ["db.2.db", "db.1.db"],
                     lastRestore := 0, connected := true } (k : Int) true).copied
            = some ((["db.2.db", "db.1.db"] : List String).get ⟨k, hk⟩, "db.db")) :=
  restore_bounds_and_selection
    { filename := "db.db", listing := ["db.2.db", "db.1.db"],
      lastRestore := 0, connected := true } 5

/-! ## Claim C9: lastRestoreIndex is assigned only after a successful copy -/

/--
Claim C9: `restore nth` assigns `nth` to the stored last-restore index
only after the file copy has succeeded: whenever the copy raises (and on
any other failing path) the index and the snapshot listing retain their
prior values, so a failed restore never changes how many snapshots the
next `backup` prunes; on a successful in-range restore the index becomes
`nth`.
-/
theorem last_restore_only_after_copy_success (s : DBState) (nth : Int) :
    ((restore s nth false).state.lastRestore = s.lastRestore
      ∧ (restore s nth false).state.listing = s.listing)
    ∧ (∀ (k : Nat), k < s.listing.length →
        (restore s (k : Int) true).state.lastRestore = (k : Int)) := by
  constructor
  · unfold restore
    split
    · exact ⟨rfl, rfl⟩
    · split
      · exact ⟨rfl, rfl⟩
      · exact ⟨rfl, rfl⟩
  · intro k hk
    have hlt : ¬ ((k : Int) ≥ (s.listing.length : Int)) := by
      simp only [ge_iff_le, not_le]
      exact_mod_cast hk
    have hget := pyGet_natCast s.listing k hk
    simp [restore, hlt, hget]

/-- Claim C9 at a concrete input: one snapshot, failed then successful restore. -/
theorem last_restore_only_after_copy_success_witness :
    ((restore { filename := "db.db", listing := ["db.1.db"],
                lastRestore := 0, connected := true } 0 false).state.lastRestore = 0
      ∧ (restore { filename := "db.db", listing := ["db.1.db"],
                   lastRestore := 0, connected := true } 0 false).state.listing
          = ["db.1.db"])
    ∧ (∀ (k : Nat), k < (["db.1.db"] : List String).length →
        (restore { filename := "db.db", listing := ["db.1.db"],
                   lastRestore := 0, connected := true } (k : Int) true).state.lastRestore
          = (k : Int)) :=
  last_restore_only_after_copy_success
    { filename := "db.db", listing := ["db.1.db"], lastRestore := 0, connected := true } 0

/-! ## Claim C10: negative restore indices pass the bounds check -/

/--
Claim C10: for every negative `nth` whose magnitude is at most the
snapshot count, `restore nth` does not raise the out-of-range
`RuntimeError` — the bounds check only rejects `nth ≥ count` — and when
the copy succeeds it raises nothing at all; in particular `restore (-1)`
selects the LAST entry of the newest-first listing, i.e. the OLDEST
snapshot, and copies it over the live file.
-/
theorem restore_negative_nth_passes_bounds_check (s : DBState) (nth : Int)
    (hneg : nth < 0) (hmag : -nth ≤ (s.listing.length : Int)) :
    (restore s nth true).error = none
    ∧ (nth = -1 → ∀ (h : s.listing ≠ []),
        (restore s nth true).copied = some (s.listing.getLast h, s.filename)) := by
  have hlt : ¬ (nth ≥ (s.listing.length : Int)) := by omega
  obtain ⟨src, hsrc⟩ := pyGet_of_neg_isSome s.listing nth hneg hmag
  refine ⟨by simp [restore, hlt, hsrc], ?_⟩
  intro hm1 hne
  subst hm1
  have hpos : 0 < s.listing.length := by omega
  have hidx : s.listing.length - 1 < s.listing.length := by omega
  have hlast : pyGet s.listing (-1) = some (s.listing.getLast hne) := by
    rw [pyGet_of_neg s.listing (-1) hneg hmag]
    rw [List.getLast_eq_get s.listing hne]
    exact List.get?_eq_get hidx
  rw [hlast] at hsrc
  simp [restore, hlt, hlast]

/-- Claim C10 at a concrete input: two snapshots, `restore (-1)`. -/
theorem restore_negative_nth_passes_bounds_check_witness :
    (restore { filename := "db.db", listing := ["db.2.db", "db.1.db"],
               lastRestore := 0, connected := true } (-1) true).error = none
    ∧ ((-1 : Int) = -1 → ∀ (h : (["db.2.db", "db.1.db"] : List String) ≠ []),
        (restore { filename := "db.db", listing := ["db.2.db", "db.1.db"],
                   lastRestore := 0, connected := true } (-1) true).copied
          = some ((["db.2.db", "db.1.db"] : List String).getLast h, "db.db")) :=
  restore_negative_nth_passes_bounds_check
    { filename := "db.db", listing := ["db.2.db", "db.1.db"],
      lastRestore := 0, connected := true } (-1) (by decide) (by decide)

/-! ## Claim C2: what apply_revision(1) records -/

/--
Claim C2 (code bug exhibited): `apply_revision 1` on a legacy store does
create the bookkeeping table, but it inserts the row `{"revision": 1}`
whose key "revision" is not a schema field of the revision table
(`created_on`, `number`), so `insert` silently drops it and the resulting
bookkeeping row's revision-number column is NULL — not 1 as the claim
(and the spec's "record revision 1") requires; reading the current
revision from the resulting store does not yield 1.
-/
theorem apply_revision_one_records_null :
    apply_revision { tables := [] } "2025-01-02 03:04:05.000000" 1
      = Except.ok { tables := [(REVISION_TABLE,
          [[(CREATED_ON, Value.text "2025-01-02 03:04:05.000000"),
            ("number", Value.null)]])] }
    ∧ readRevision { tables := [(REVISION_TABLE,
          [[(CREATED_ON, Value.text "2025-01-02 03:04:05.000000"),
            ("number", Value.null)]])] } ≠ some 1
    ∧ Value.null ≠ Value.int 1 := by
  refine ⟨rfl, by decide, by decide⟩

/-! ## Claim C3: connect on a legacy store migrates to the target revision -/

/-- Reduction of `connect_existing` once the revision read is known. -/
theorem connect_existing_of_readRevision (db : Database) (now : String) (r : Int)
    (h : readRevision db = some r) :
    connect_existing db now =
      if r < LATEST_REVISION then
        (applyRevisionList now db
            ((pyRange r LATEST_REVISION).map (fun x => x + 1))).bind
          (fun db1 =>
            (update db1 revisionTableDefinition
                [("number", Value.int LATEST_REVISION)] whereAll).bind
              (fun p => Except.ok p.1))
      else Except.ok db := by
  unfold connect_existing
  rw [h]

/--
Claim C3: for every existing store lacking the bookkeeping table (or
whose revision query returns no rows), `connect`'s existing-store branch
treats the current revision as 0, applies the migration steps for
revisions 1 through the compiled-in target (a strictly increasing list,
here `[1]`), and afterwards the bookkeeping table exists with the target
revision recorded as the current revision value.
-/
theorem legacy_connect_reaches_target (db : Database) (now : String)
    (h : dbGetTable db REVISION_TABLE = none ∨ dbGetTable db REVISION_TABLE = some []) :
    ∃ db2, connect_existing db now = Except.ok db2
      ∧ dbGetTable db2 REVISION_TABLE
          = some [[(CREATED_ON, Value.text now), ("number", Value.int LATEST_REVISION)]]
      ∧ readRevision db2 = some LATEST_REVISION
      ∧ (pyRange 0 LATEST_REVISION).map (fun x => x + 1) = [1]
      ∧ List.Chain' (fun a b : Int => a < b)
          ((pyRange 0 LATEST_REVISION).map (fun x => x + 1)) := by
  have hread : readRevision db = some 0 := by
    rcases h with h | h <;> simp [readRevision, h]
  have hrange : (pyRange 0 LATEST_REVISION).map (fun x => x + 1) = [1] := by decide
  have hget1 : dbGetTable (create_table db revisionTableDefinition) REVISION_TABLE
      = some [] := dbGetTable_create_table db revisionTableDefinition
  have hins := insert_single_of_present (create_table db revisionTableDefinition)
    revisionTableDefinition now [("revision", Value.int 1)] [] hget1 rfl
  have happ1 : apply_revision db now 1 = Except.ok
      (dbSetTable (create_table db revisionTableDefinition) REVISION_TABLE
        [[(CREATED_ON, Value.text now), ("number", Value.null)]]) := by
    unfold apply_revision
    rw [hins]
    rfl
  have happly : applyRevisionList now db [1] = Except.ok
      (dbSetTable (create_table db revisionTableDefinition) REVISION_TABLE
        [[(CREATED_ON, Value.text now), ("number", Value.null)]]) := by
    unfold applyRevisionList
    rw [happ1]
    rfl
  have hget2 : dbGetTable (dbSetTable (create_table db revisionTableDefinition)
      REVISION_TABLE [[(CREATED_ON, Value.text now), ("number", Value.null)]])
      REVISION_TABLE
      = some [[(CREATED_ON, Value.text now), ("number", Value.null)]] :=
    dbGetTable_dbSetTable_same (create_table db revisionTableDefinition) REVISION_TABLE
      [[(CREATED_ON, Value.text now), ("number", Value.null)]] (by rw [hget1]; rfl)
  have hupd := update_whereAll_of_present
    (dbSetTable (create_table db revisionTableDefinition) REVISION_TABLE
      [[(CREATED_ON, Value.text now), ("number", Value.null)]])
    revisionTableDefinition [("number", Value.int LATEST_REVISION)]
    [[(CREATED_ON, Value.text now), ("number", Value.null)]] hget2 rfl
  have hget3 : dbGetTable (dbSetTable (dbSetTable (create_table db revisionTableDefinition)
      REVISION_TABLE [[(CREATED_ON, Value.text now), ("number", Value.null)]])
      REVISION_TABLE [[(CREATED_ON, Value.text now), ("number", Value.int LATEST_REVISION)]])
      REVISION_TABLE
      = some [[(CREATED_ON, Value.text now), ("number", Value.int LATEST_REVISION)]] :=
    dbGetTable_dbSetTable_same _ REVISION_TABLE
      [[(CREATED_ON, Value.text now), ("number", Value.int LATEST_REVISION)]]
      (by rw [hget2]; rfl)
  have hrowmap : List.map
      (applyAssignments (updatableAssignments revisionTableDefinition
        [("number", Value.int LATEST_REVISION)]))
      [[(CREATED_ON, Value.text now), ("number", Value.null)]]
      = [[(CREATED_ON, Value.text now), ("number", Value.int LATEST_REVISION)]] := rfl
  refine ⟨dbSetTable (dbSetTable (create_table db revisionTableDefinition)
      REVISION_TABLE [[(CREATED_ON, Value.text now), ("number", Value.null)]])
      REVISION_TABLE [[(CREATED_ON, Value.text now), ("number", Value.int LATEST_REVISION)]],
    ?_, hget3, ?_, hrange, by rw [hrange]; simp⟩
  · rw [connect_existing_of_readRevision db now 0 hread]
    rw [if_pos (by norm_num [LATEST_REVISION])]
    rw [hrange, happly]
    simp only [Except.bind]
    rw [hupd]
    simp only [Except.bind]
    rw [hrowmap]
    rfl
  · unfold readRevision
    rw [hget3]
    rfl

/-- Claim C3 at a concrete input: the empty legacy store. -/
theorem legacy_connect_reaches_target_witness :
    ∃ db2, connect_existing { tables := [] } "2025-01-02 03:04:05.000000" = Except.ok db2
      ∧ dbGetTable db2 REVISION_TABLE
          = some [[(CREATED_ON, Value.text "2025-01-02 03:04:05.000000"),
                   ("number", Value.int LATEST_REVISION)]]
      ∧ readRevision db2 = some LATEST_REVISION
      ∧ (pyRange 0 LATEST_REVISION).map (fun x => x + 1) = [1]
      ∧ List.Chain' (fun a b : Int => a < b)
          ((pyRange 0 LATEST_REVISION).map (fun x => x + 1)) :=
  legacy_connect_reaches_target { tables := [] } "2025-01-02 03:04:05.000000"
    (Or.inl rfl)

/-! ## Claim C4: connect on a fresh store -/

/--
Claim C4: for every path whose backing file does not exist, `connect`
creates the file and its parent directory, creates every registered table
schema, inserts an initial revision record whose number equals the
compiled-in target revision, and sets the file's permission bits to
world read-write (0o666).
-/
theorem fresh_connect_creates_store (fs : FsState) (db : Database) (now : String)
    (h : fs.fileExists = false) :
    connect fs db now = Except.ok
      ({ fileExists := true, dirExists := true, mode := 0o666 },
       { tables := [(REVISION_TABLE,
           [[(CREATED_ON, Value.text now), ("number", Value.int LATEST_REVISION)]])] })
    ∧ readRevision { tables := [(REVISION_TABLE,
           [[(CREATED_ON, Value.text now), ("number", Value.int LATEST_REVISION)]])] }
        = some LATEST_REVISION
    ∧ ∀ t ∈ tableRegistry,
        (dbGetTable { tables := [(REVISION_TABLE,
            [[(CREATED_ON, Value.text now),
              ("number", Value.int LATEST_REVISION)]])] } t.name).isSome = true := by
  refine ⟨?_, rfl, ?_⟩
  · unfold connect
    rw [h]
    rfl
  · intro t ht
    simp only [tableRegistry, List.mem_singleton] at ht
    subst ht
    rfl

/-- Claim C4 at a concrete input: nonexistent file, empty directory state. -/
theorem fresh_connect_creates_store_witness :
    connect { fileExists := false, dirExists := false, mode := 0 } { tables := [] }
        "2025-01-02 03:04:05.000000"
      = Except.ok
        ({ fileExists := true, dirExists := true, mode := 0o666 },
         { tables := [(REVISION_TABLE,
             [[(CREATED_ON, Value.text "2025-01-02 03:04:05.000000"),
               ("number", Value.int LATEST_REVISION)]])] })
    ∧ readRevision { tables := [(REVISION_TABLE,
           [[(CREATED_ON, Value.text "2025-01-02 03:04:05.000000"),
             ("number", Value.int LATEST_REVISION)]])] }
        = some LATEST_REVISION
    ∧ ∀ t ∈ tableRegistry,
        (dbGetTable { tables := [(REVISION_TABLE,
            [[(CREATED_ON, Value.text "2025-01-02 03:04:05.000000"),
              ("number", Value.int LATEST_REVISION)]])] } t.name).isSome = true :=
  fresh_connect_creates_store { fileExists := false, dirExists := false, mode := 0 }
    { tables := [] } "2025-01-02 03:04:05.000000" rfl

/-! ## Claim C7: the insert contract -/

/-- A key a row does not carry is not found by the row lookup. -/
theorem find?_eq_none_of_not_rowHas (row : Row) (f : String) (h : rowHas row f = false) :
    row.find? (fun p => p.1 == f) = none := by
  unfold rowHas at h
  rw [List.find?_eq_none]
  intro x hx hpx
  have hany : row.any (fun p => p.1 == f) = true := List.any_eq_true.mpr ⟨x, hx, hpx⟩
  rw [h] at hany
  cases hany

/-- A key a row carries can be looked up. -/
theorem rowGet_isSome_of_rowHas (row : Row) (f : String) (h : rowHas row f = true) :
    ∃ v, rowGet row f = some v := by
  unfold rowHas at h
  unfold rowGet
  have hs : (row.find? (fun p => p.1 == f)).isSome = true :=
    List.find?_isSome.mpr (List.any_eq_true.mp h)
  obtain ⟨p, hp⟩ := Option.isSome_iff_exists.mp hs
  exact ⟨p.2, by rw [hp]; rfl⟩

/--
Claim C7: `insert` is a no-op on an empty rows list; the insertable field
set is exactly the schema fields present in the FIRST row plus the
created-timestamp field; stored rows carry exactly the schema columns, so
row keys outside the table schema are silently ignored; the
created-timestamp field is auto-filled with the current instant in every
row where it is absent; and inserting `[{"number": 1}]` into the
two-field `(created_on, number)` revision table yields exactly one row
with `number = 1` and a non-null `created_on`.
-/
theorem insert_contract :
    (∀ (db : Database) (table : TableDefinition) (now : String),
        insert db table now [] = Except.ok db)
    ∧ (∀ (table : TableDefinition) (firstRow : Row) (f : String),
        f ∈ insertableFields table firstRow ↔
          f ∈ table.fields.map Prod.fst ∧ (rowHas firstRow f = true ∨ f = CREATED_ON))
    ∧ (∀ (table : TableDefinition) (cols : List String) (vals : List Value),
        (mkStoredRow table cols vals).map Prod.fst = table.fields.map Prod.fst)
    ∧ (∀ (now : String) (firstRow row : Row),
        rowHas row CREATED_ON = false → rowHas firstRow CREATED_ON = false →
        rowHas row "number" = rowHas firstRow "number" →
        rowGet (mkStoredRow revisionTableDefinition
            (insertableFields revisionTableDefinition firstRow)
            (valuesRow revisionTableDefinition now row)) CREATED_ON
          = some (Value.text now))
    ∧ (∀ (now : String),
        insert { tables := [(REVISION_TABLE, [])] } revisionTableDefinition now
            [[("number", Value.int 1)]]
          = Except.ok { tables := [(REVISION_TABLE,
              [[(CREATED_ON, Value.text now), ("number", Value.int 1)]])] }
        ∧ Value.text now ≠ Value.null) := by
  refine ⟨fun db table now => rfl, ?_, ?_, ?_, fun now => ⟨rfl, by simp⟩⟩
  · intro table firstRow f
    unfold insertableFields
    rw [List.mem_filterMap]
    constructor
    · rintro ⟨p, hp, hsome⟩
      split_ifs at hsome with h1 h2
      · obtain rfl : p.1 = f := Option.some.inj hsome
        exact ⟨List.mem_map_of_mem Prod.fst hp, Or.inl h1⟩
      · obtain rfl : p.1 = f := Option.some.inj hsome
        exact ⟨List.mem_map_of_mem Prod.fst hp, Or.inr (by simpa using h2)⟩
    · rintro ⟨hmem, hf⟩
      obtain ⟨p, hp, hpf⟩ := List.mem_map.mp hmem
      subst hpf
      refine ⟨p, hp, ?_⟩
      rcases hf with hf | hf
      · simp [hf]
      · by_cases hhas : rowHas firstRow p.1
        · simp [hhas]
        · simp [hhas, hf]
  · intro table cols vals
    unfold mkStoredRow
    rw [List.map_map]
    rfl
  · intro now firstRow row h1 h2 h3
    have h1' : rowHas row "created_on" = false := h1
    have h2' : rowHas firstRow "created_on" = false := h2
    have hfind : row.find? (fun p => p.1 == "created_on") = none :=
      find?_eq_none_of_not_rowHas row "created_on" h1'
    cases hb : rowHas firstRow "number" with
    | false =>
      have hrn : rowHas row "number" = false := by rw [h3]; exact hb
      simp [insertableFields, valuesRow, mkStoredRow, rowGet, revisionTableDefinition,
        CREATED_ON, h1', h2', hb, hrn, hfind]
    | true =>
      have hrn : rowHas row "number" = true := by rw [h3]; exact hb
      obtain ⟨v, hv⟩ := rowGet_isSome_of_rowHas row "number" hrn
      simp [insertableFields, valuesRow, mkStoredRow, rowGet, revisionTableDefinition,
        CREATED_ON, h1', h2', hb, hrn, hv, hfind]

/-- Claim C7 at concrete inputs. -/
theorem insert_contract_witness :
    insert { tables := [] } revisionTableDefinition "T" [] = Except.ok { tables := [] }
    ∧ ("created_on" ∈ insertableFields revisionTableDefinition [("number", Value.int 1)] ↔
        "created_on" ∈ revisionTableDefinition.fields.map Prod.fst
          ∧ (rowHas [(("number" : String), Value.int 1)] "created_on" = true
              ∨ "created_on" = CREATED_ON))
    ∧ rowGet (mkStoredRow revisionTableDefinition
        (insertableFields revisionTableDefinition [(("extra" : String), Value.int 7)])
        (valuesRow revisionTableDefinition "T" [(("extra" : String), Value.int 7)]))
        CREATED_ON = some (Value.text "T")
    ∧ insert { tables := [(REVISION_TABLE, [])] } revisionTableDefinition "T"
        [[("number", Value.int 1)]]
      = Except.ok { tables := [(REVISION_TABLE,
          [[(CREATED_ON, Value.text "T"), ("number", Value.int 1)]])] } :=
  ⟨insert_contract.1 { tables := [] } revisionTableDefinition "T",
   insert_contract.2.1 revisionTableDefinition [("number", Value.int 1)] "created_on",
   insert_contract.2.2.2.1 "T" [(("extra" : String), Value.int 7)]
     [(("extra" : String), Value.int 7)] rfl rfl rfl,
   (insert_contract.2.2.2.2 "T").1⟩

/-! ## Claim C8: the query contract -/

/--
Inserting distinct fresh keys into an ordered record appends them in
order, so the record-building loop of `query` reproduces the column
order.
-/
theorem foldl_setKey_eq_append (cols : List String) (vals : List Value) (acc : Row)
    (hnd : cols.Nodup) (hlen : cols.length ≤ vals.length)
    (hdisj : ∀ c ∈ cols, rowHas acc c = false) :
    (cols.zip vals).foldl (fun r cv => setKey r cv.1 cv.2) acc = acc ++ cols.zip vals := by
  induction cols generalizing vals acc with
  | nil => simp
  | cons c cs ih =>
    cases vals with
    | nil => simp at hlen
    | cons v vs =>
      simp only [List.zip_cons_cons, List.foldl_cons]
      have hc : rowHas acc c = false := hdisj c (List.mem_cons_self c cs)
      have hset : setKey acc c v = acc ++ [(c, v)] := by simp [setKey, hc]
      rw [hset, ih vs (acc ++ [(c, v)]) hnd.of_cons (by simpa using hlen) ?_]
      · simp
      · intro c' hc'
        have hne : ¬ (c = c') := fun he =>
          (List.nodup_cons.mp hnd).1 (he ▸ hc')
        have hacc := hdisj c' (List.mem_cons_of_mem c hc')
        unfold rowHas at hacc ⊢
        rw [List.any_append]
        simp [hacc, hne]

/--
Claim C8: on success `query` returns the fully materialized result set as
ordered field-to-value records preserving the statement's column order
(for the distinct column labels the engine describes); a sqlite
`OperationalError` is re-raised wrapped, its message carrying the
original engine error explanation as a suffix; and on every exit path —
success, wrapped engine error, or any other exception — the cursor opened
for the query is closed.
-/
theorem query_contract :
    (∀ (e : EngineResult) (sql : String) (why : Option String),
        (query e sql why).cursorClosed = true)
    ∧ (∀ (cols : List String) (rows : List (List Value)) (sql : String) (why : Option String),
        cols.Nodup → (∀ r ∈ rows, cols.length ≤ r.length) →
        (query (EngineResult.ok cols rows) sql why).result
            = Except.ok (rows.map (fun r => cols.zip r))
          ∧ ∀ r ∈ rows, (cols.zip r).map Prod.fst = cols)
    ∧ (∀ (m sql : String) (why : Option String), ∃ pre,
        (query (EngineResult.operationalError m) sql why).result
          = Except.error (pre ++ m)) := by
  refine ⟨fun e sql why => by cases e <;> rfl, ?_, ?_⟩
  · intro cols rows sql why hnd hlen
    constructor
    · unfold query
      simp only [QueryResult.mk.injEq]
      congr 1
      apply List.map_congr_left
      intro r hr
      unfold buildRecord
      rw [foldl_setKey_eq_append cols r [] hnd (hlen r hr) (fun c _ => rfl)]
      rfl
    · intro r hr
      exact List.map_fst_zip cols r (hlen r hr)
  · intro m sql why
    cases why with
    | none => exact ⟨("executing " ++ sql) ++ ": ", rfl⟩
    | some w => exact ⟨("executing " ++ w ++ ": " ++ sql) ++ ": ", rfl⟩

/-- Claim C8 at concrete inputs. -/
theorem query_contract_witness :
    (query (EngineResult.otherError "boom") "SELECT 1" none).cursorClosed = true
    ∧ ((query (EngineResult.ok ["a", "b"] [[Value.int 1, Value.int 2]]) "SELECT 1"
          none).result
        = Except.ok [[(("a" : String), Value.int 1), (("b" : String), Value.int 2)]]
        ∧ ∀ r ∈ [[Value.int 1, Value.int 2]],
            ((["a", "b"] : List String).zip r).map Prod.fst = ["a", "b"])
    ∧ ∃ pre, (query (EngineResult.operationalError "no such table") "SELECT 1"
        none).result = Except.error (pre ++ "no such table") :=
  ⟨query_contract.1 (EngineResult.otherError "boom") "SELECT 1" none,
   query_contract.2.1 ["a", "b"] [[Value.int 1, Value.int 2]] "SELECT 1" none
     (by decide) (by decide),
   query_contract.2.2 "no such table" "SELECT 1" none⟩

end DlsNormsql
